import Mathlib

/-!
# fakesqldb: the fake `sqldb.Conn` and its canned-result store

A shallow embedding of `go/vt/tabletserver/fakesqldb/conn.go`.

Conventions of the embedding.

* Go slices are lists; a `nil` slice and an empty slice are both `[]`.
* A nilable pointer is an `Option`; `none` is `nil`.
* `uint64` and `int` values are `Nat` and `Int`; the two conversions the code
  performs (`uint64(maxrows)`, `int(qr.RowsAffected)`) wrap modulo `2^64`.
* A run-time panic is a result of its own (`Res.panic`), distinct from a
  returned Go `error`.
* `Conn.db` is a pointer to a shared, mutable `DB`.  A pointer to a store is a
  `DBRef`, and a `Heap` gives the current state of the store behind every
  `DBRef`; a method that dereferences `conn.db` takes the heap as its first
  argument.  The mutex of `DB` has no sequential meaning and is left out.
-/

namespace fakesqldb

/-! ## Data model -/

/-- Modelled from the spec: `sqltypes.Value` is declared outside this package;
a value is carried as the text that its `String()` method renders. -/
structure Value where
  raw : String
  deriving DecidableEq, Repr

/-- Modelled from the spec: `sqltypes.Value.String`, the string form of a
value. -/
def Value.String (v : Value) : String := v.raw

/-- The `proto.Field` record: a column name and its type code (`Type` in
the source, a reserved word here). -/
structure Field where
  Name : String
  Typ : Int
  deriving DecidableEq, Repr

/-- The `proto.QueryResult` record.  The zero value `{}` is what
`&proto.QueryResult{}` allocates. -/
structure QueryResult where
  Fields : List Field := []
  RowsAffected : Nat := 0
  InsertId : Nat := 0
  Rows : List (List Value) := []
  deriving DecidableEq, Repr

/-- The `proto.Charset` record (three numeric session variables). -/
structure Charset where
  Client : Int
  Conn : Int
  Server : Int
  deriving DecidableEq, Repr

/-- The errors built with `fmt.Errorf` in this package, with the arguments
handed to the format string. -/
inductive Err where
  | connectionClosed
  | rowCountExceeded (maxrows : Int)
  | rowsReturned (query : String) (n : Nat)
  | columnNames (query : String) (nFields : Nat) (nColumns : Nat)
  deriving DecidableEq, Repr

/-- The format string of each error, as written in the source. -/
def Err.format : Err → String
  | .connectionClosed => "Connection is closed"
  | .rowCountExceeded _ => "Row count exceeded %d"
  | .rowsReturned _ _ => "query %#v returned %d rows, expected 1"
  | .columnNames _ _ _ => "query %#v returned %d column names, expected %d"

/-- The `sqldb.SqlError` record returned by the connection factory. -/
structure SqlError where
  Num : Nat
  Message : String
  Query : String
  deriving DecidableEq, Repr

/-- The two run-time panics the package can raise. -/
inductive Fatal where
  | nilDereference
  | indexOutOfRange
  deriving DecidableEq, Repr

/-- Outcome of a call: it either returns or panics. -/
inductive Res (α : Type) where
  | ret (a : α)
  | panic (f : Fatal)
  deriving DecidableEq, Repr

/-- The `uint64(x)` conversion of a signed integer. -/
def uint64 (x : Int) : Nat := (x % 2 ^ 64).toNat

/-- The `int(x)` conversion of an unsigned 64-bit integer (64-bit `int`). -/
def int (x : Nat) : Int :=
  if x % 2 ^ 64 < 2 ^ 63 then ((x % 2 ^ 64 : Nat) : Int)
  else ((x % 2 ^ 64 : Nat) : Int) - 2 ^ 64

/-- The builtin `copy(dst, src)`: overwrites the first
`min (len dst) (len src)` elements of `dst`; the length of `dst` is kept. -/
def copy {α : Type} (dst src : List α) : List α :=
  src.take (min dst.length src.length) ++ dst.drop (min dst.length src.length)

/-! ## DB -/

/-- The `DB` struct: the fault flag and the map from query text to result. -/
structure DB where
  isConnFail : Bool
  data : String → Option QueryResult

/-- `DB.AddQuery`: stores a copy of the result under the query text. -/
def DB.AddQuery (db : DB) (query : String) (expectedResult : QueryResult) : DB :=
  let result : QueryResult := expectedResult
  { db with data := fun q => if q = query then some result else db.data q }

/-- `DB.GetQuery`: the map lookup `result, ok := db.data[query]`. -/
def DB.GetQuery (db : DB) (query : String) : Option QueryResult :=
  db.data query

/-- `DB.DeleteQuery`: `delete(db.data, query)`. -/
def DB.DeleteQuery (db : DB) (query : String) : DB :=
  { db with data := fun q => if q = query then none else db.data q }

/-- `DB.EnableConnFail`. -/
def DB.EnableConnFail (db : DB) : DB := { db with isConnFail := true }

/-- `DB.DisableConnFail`. -/
def DB.DisableConnFail (db : DB) : DB := { db with isConnFail := false }

/-- `DB.IsConnFail`. -/
def DB.IsConnFail (db : DB) : Bool := db.isConnFail

/-- A non-nil `*DB`. -/
abbrev DBRef := Nat

/-- The stores in memory: the state of the `DB` behind each pointer. -/
abbrev Heap := DBRef → DB

/-! ## Conn -/

/-- The `Conn` struct. -/
structure Conn where
  db : DBRef
  isClosed : Bool
  id : Nat
  curQueryResult : Option QueryResult := none
  curQueryRow : Int := 0
  charset : Option Charset := none
  deriving DecidableEq, Repr

/-- `NewFakeSqlDBConn`; the argument is the value drawn from `rand.Int63()`. -/
def NewFakeSqlDBConn (db : DBRef) (id : Nat) : Conn :=
  { db := db, isClosed := false, id := id }

/-- `Conn.IsClosed`. -/
def Conn.IsClosed (conn : Conn) : Bool := conn.isClosed

/-- `Conn.Close`. -/
def Conn.Close (conn : Conn) : Conn := { conn with isClosed := true }

/-- The row loop of `ExecuteFetch`:
`for i := 0; i < rowCount; i++ { rows[i] = result.Rows[i] }`, run for
`todo` more iterations from index `i`. -/
def copyRows (resultRows : List (List Value)) :
    Nat → Nat → List (List Value) → Res (List (List Value))
  | 0, _, rows => .ret rows
  | todo + 1, i, rows =>
    match resultRows[i]? with
    | none => .panic .indexOutOfRange
    | some row => copyRows resultRows todo (i + 1) (rows.set i row)

/-- `Conn.ExecuteFetch`. -/
def Conn.ExecuteFetch (heap : Heap) (conn : Conn) (query : String) (maxrows : Int)
    (wantfields : Bool) : Res (Except Err QueryResult) :=
  if conn.IsClosed then .ret (.error .connectionClosed)
  else
    match (heap conn.db).GetQuery query with
    | none => .ret (.ok {})
    | some result =>
      let qr : QueryResult := {}
      let qr := { qr with RowsAffected := result.RowsAffected }
      let qr := { qr with InsertId := result.InsertId }
      if qr.RowsAffected > uint64 maxrows then
        .ret (.error (.rowCountExceeded maxrows))
      else
        let qr := if wantfields then { qr with Fields := copy qr.Fields result.Fields } else qr
        let rowCount := int qr.RowsAffected
        if rowCount > 0 then
          match copyRows result.Rows rowCount.toNat 0 (List.replicate rowCount.toNat []) with
          | .panic f => .panic f
          | .ret rows => .ret (.ok { qr with Rows := rows })
        else .ret (.ok qr)

/-- The map-filling loop of `ExecuteFetchMap`:
`for i, value := range qr.Rows[0] { rowMap[qr.Fields[i].Name] = value.String() }`,
from column `i` on. -/
def fillRowMap (fields : List Field) :
    List Value → Nat → (String → Option String) → Res (String → Option String)
  | [], _, rowMap => .ret rowMap
  | value :: rest, i, rowMap =>
    match fields[i]? with
    | none => .panic .indexOutOfRange
    | some f =>
      fillRowMap fields rest (i + 1)
        (fun k => if k = f.Name then some value.String else rowMap k)

/-- `Conn.ExecuteFetchMap`. -/
def Conn.ExecuteFetchMap (heap : Heap) (conn : Conn) (query : String) :
    Res (Except Err (String → Option String)) :=
  match conn.ExecuteFetch heap query 1 true with
  | .panic f => .panic f
  | .ret (.error err) => .ret (.error err)
  | .ret (.ok qr) =>
    if qr.Rows.length ≠ 1 then .ret (.error (.rowsReturned query qr.Rows.length))
    else
      match qr.Rows[0]? with
      | none => .panic .indexOutOfRange
      | some row0 =>
        if qr.Fields.length ≠ row0.length then
          .ret (.error (.columnNames query qr.Fields.length row0.length))
        else
          match fillRowMap qr.Fields row0 0 (fun _ => none) with
          | .panic f => .panic f
          | .ret rowMap => .ret (.ok rowMap)

/-- `Conn.ExecuteStreamFetch`: the returned error (`none` is `nil`) and the
connection afterwards. -/
def Conn.ExecuteStreamFetch (heap : Heap) (conn : Conn) (query : String) :
    Option Err × Conn :=
  if conn.IsClosed then (some .connectionClosed, conn)
  else
    let result : QueryResult :=
      match (heap conn.db).GetQuery query with
      | some result => result
      | none => {}
    let conn := { conn with curQueryResult := some result }
    let conn := { conn with curQueryRow := 0 }
    (none, conn)

/-- `Conn.FetchNext`: the returned pair `(row, err)` and the connection
afterwards.  The first statement reads `conn.curQueryResult.Rows`, before the
`nil` test of the second. -/
def Conn.FetchNext (conn : Conn) : Res ((Option (List Value) × Option Err) × Conn) :=
  match conn.curQueryResult with
  | none => .panic .nilDereference
  | some cur =>
    let rowCount : Int := (cur.Rows.length : Int)
    if conn.curQueryResult.isNone || decide (rowCount ≤ conn.curQueryRow) then
      .ret ((none, none), conn)
    else if conn.curQueryRow < 0 then .panic .indexOutOfRange
    else
      match cur.Rows[conn.curQueryRow.toNat]? with
      | none => .panic .indexOutOfRange
      | some row => .ret ((some row, none), { conn with curQueryRow := conn.curQueryRow + 1 })

/-- `n` consecutive calls of `FetchNext`: the pairs returned, in call order,
and the connection after the last call. -/
def fetchMany : Nat → Conn → Res (List (Option (List Value) × Option Err) × Conn)
  | 0, conn => .ret ([], conn)
  | n + 1, conn =>
    match conn.FetchNext with
    | .panic f => .panic f
    | .ret (out, conn1) =>
      match fetchMany n conn1 with
      | .panic f => .panic f
      | .ret (outs, conn2) => .ret (out :: outs, conn2)

/-! ## The remaining methods of Conn -/

/-- `Conn.CloseResult`: an empty body. -/
def Conn.CloseResult (conn : Conn) : Conn := conn

/-- `Conn.Shutdown`: an empty body. -/
def Conn.Shutdown (conn : Conn) : Conn := conn

/-- `Conn.Fields`: `make([]proto.Field, 0)`. -/
def Conn.Fields (_conn : Conn) : List Field := []

/-- `Conn.ID`. -/
def Conn.ID (conn : Conn) : Nat := conn.id

/-- `Conn.ReadPacket`: an empty packet and a nil error. -/
def Conn.ReadPacket (_conn : Conn) : List Nat × Option Err := ([], none)

/-- `Conn.SendCommand`: a nil error. -/
def Conn.SendCommand (_conn : Conn) (_command : Nat) (_data : List Nat) : Option Err := none

/-- `Conn.GetCharset`: `return *conn.charset, nil`. -/
def Conn.GetCharset (conn : Conn) : Res (Charset × Option Err) :=
  match conn.charset with
  | none => .panic .nilDereference
  | some cs => .ret (cs, none)

/-- `Conn.SetCharset`: `*conn.charset = cs; return nil`; the returned error and
the connection afterwards. -/
def Conn.SetCharset (conn : Conn) (cs : Charset) : Res (Option Err × Conn) :=
  match conn.charset with
  | none => .panic .nilDereference
  | some _ => .ret (none, { conn with charset := some cs })

/-- A call of one method of `Conn`, with its arguments. -/
inductive Op where
  | ExecuteFetch (query : String) (maxrows : Int) (wantfields : Bool)
  | ExecuteFetchMap (query : String)
  | ExecuteStreamFetch (query : String)
  | FetchNext
  | Close
  | IsClosed
  | CloseResult
  | Shutdown
  | Fields
  | ID
  | ReadPacket
  | SendCommand (command : Nat) (data : List Nat)
  | GetCharset
  | SetCharset (cs : Charset)
  deriving DecidableEq, Repr

/-- The connection after one call.  Methods that do not assign to a field of
the receiver leave it as it is; a call that panics has assigned nothing
before the panic. -/
def Conn.after (heap : Heap) (conn : Conn) : Op → Conn
  | .ExecuteFetch _ _ _ => conn
  | .ExecuteFetchMap _ => conn
  | .ExecuteStreamFetch query => (conn.ExecuteStreamFetch heap query).2
  | .FetchNext =>
    match conn.FetchNext with
    | .ret (_, conn1) => conn1
    | .panic _ => conn
  | .Close => conn.Close
  | .IsClosed => conn
  | .CloseResult => conn.CloseResult
  | .Shutdown => conn.Shutdown
  | .Fields => conn
  | .ID => conn
  | .ReadPacket => conn
  | .SendCommand _ _ => conn
  | .GetCharset => conn
  | .SetCharset cs =>
    match conn.SetCharset cs with
    | .ret (_, conn1) => conn1
    | .panic _ => conn

/-- The connection after a sequence of calls; each call comes with the state
the stores are in when it is made. -/
def Conn.afterAll (conn : Conn) : List (Heap × Op) → Conn
  | [] => conn
  | (heap, op) :: rest => (conn.after heap op).afterAll rest

/-! ## Register -/

/-- `Register`: the store it allocates,
`&DB{data: make(map[string]*proto.QueryResult)}`. -/
def Register : DB := { isConnFail := false, data := fun _ => none }

/-- The connection factory that `Register` installs with `sqldb.Register`: a
closure over the pointer `db` to the store just allocated; `id` is the value
drawn from `rand.Int63()`.  The `sqldb` registry itself is outside this
package. -/
def RegisterFactory (heap : Heap) (db : DBRef) (id : Nat) : Except SqlError Conn :=
  if (heap db).IsConnFail then
    .error { Num := 2012, Message := "connection fail", Query := "" }
  else .ok (NewFakeSqlDBConn db id)



/-! ## Sample inputs -/

/-- A registered result with one field and one row. -/
def selectOne : QueryResult :=
  { Fields := [⟨"id", 3⟩], RowsAffected := 1, InsertId := 7, Rows := [[⟨"1"⟩]] }

/-- A registered result with one field and two rows. -/
def selectTwo : QueryResult :=
  { Fields := [⟨"id", 3⟩], RowsAffected := 2, InsertId := 0, Rows := [[⟨"1"⟩], [⟨"2"⟩]] }

/-- A registered result with no rows. -/
def selectNone : QueryResult :=
  { Fields := [⟨"id", 3⟩], RowsAffected := 0, InsertId := 0, Rows := [] }

/-- The store after `Register` and three `AddQuery` calls. -/
def sampleDB : DB :=
  ((Register.AddQuery "SELECT 1" selectOne).AddQuery "SELECT 2" selectTwo).AddQuery
    "SELECT 0" selectNone

/-- A heap whose stores all hold the sample entries. -/
def sampleHeap : Heap := fun _ => sampleDB

/-- A heap whose stores had `"SELECT 1"` registered and then deleted. -/
def deletedHeap : Heap := fun _ => sampleDB.DeleteQuery "SELECT 1"

/-- An open connection in the middle of an earlier stream. -/
def streamingConn : Conn :=
  { db := 0, isClosed := false, id := 5, curQueryResult := some selectTwo, curQueryRow := 1 }

/-- The store of the scenario: `"SELECT 1"` registered with two rows. -/
def scenarioHeap : Heap :=
  fun _ => Register.AddQuery "SELECT 1"
    { RowsAffected := 2, Rows := [[⟨"1"⟩], [⟨"2"⟩]] }

/-- A registration whose `RowsAffected` is not the number of its rows. -/
def selectSkewed : QueryResult :=
  { Fields := [⟨"id", 3⟩], RowsAffected := 5, InsertId := 0, Rows := [[⟨"1"⟩]] }

/-- A heap whose stores hold the skewed registration. -/
def skewedHeap : Heap := fun _ => Register.AddQuery "SELECT 5" selectSkewed

/-- The sample stores with the fault flag set. -/
def failingHeap : Heap := fun _ => sampleDB.EnableConnFail

end fakesqldb

/-!
# tabletconntest: the fake query service of the conformance suite

A shallow embedding of the server side of
`go/vt/tabletserver/tabletconntest/tabletconntest.go`.  The service has one
field, the `*testing.T` it reports to; `t.Errorf` appends a record to the log
of that `T` and the method goes on.  Every method returns its `error`
(`none` is `nil`) next to the service afterwards and what it wrote through
its out-parameter.
-/

namespace tabletconntest

open fakesqldb (Value Field QueryResult)

/-! ## Protocol records -/

/-- A Go `error` value, carried as its message. -/
abbrev GoError := String

/-- Modelled from the spec: a bind-variable value (`interface{}` in the
source): its dynamic type and its value. -/
inductive BindValue where
  | int64 (v : Int)
  | string (v : String)
  deriving DecidableEq, Repr

/-- Modelled from the spec: `bind_variables`, a mapping from name to value
with unique keys, `map[string]interface{}` in the source; the order of the
list carries no meaning. -/
abbrev BindVariables := List (String × BindValue)

/-- Modelled from the spec: `BoundQuery`, a sql text and its bind
variables. -/
structure BoundQuery where
  Sql : String
  BindVariables : BindVariables
  deriving DecidableEq, Repr

/-- Modelled from the spec: `Session`, the session id and the transaction id
that Begin, Commit and Rollback receive. -/
structure Session where
  SessionId : Int
  TransactionId : Int
  deriving DecidableEq, Repr

/-- The `proto.TransactionInfo` record that Begin fills in. -/
structure TransactionInfo where
  TransactionId : Int
  deriving DecidableEq, Repr

/-- Modelled from the spec: `Query`, the request of Execute and
StreamExecute. -/
structure Query where
  Sql : String
  BindVariables : BindVariables
  SessionId : Int
  TransactionId : Int
  deriving DecidableEq, Repr

/-- Modelled from the spec: `QuerySplit`, a query and its estimated row
count. -/
structure QuerySplit where
  Query : BoundQuery
  RowCount : Int
  deriving DecidableEq, Repr

/-- Modelled from the spec: `SplitQueryRequest`. -/
structure SplitQueryRequest where
  Query : BoundQuery
  SplitCount : Int
  deriving DecidableEq, Repr

/-- Modelled from the spec: `SplitQueryResult`. -/
structure SplitQueryResult where
  Queries : List QuerySplit := []
  deriving DecidableEq, Repr

/-- `reflect.DeepEqual` on two bind-variable maps: the same keys, bound to
equal values. -/
def mapDeepEqual (a b : BindVariables) : Bool :=
  a.all (fun p => b.lookup p.1 == some p.2) && b.all (fun p => a.lookup p.1 == some p.2)

/-- `reflect.DeepEqual` on two `BoundQuery` values. -/
def boundQueryDeepEqual (a b : BoundQuery) : Bool :=
  a.Sql == b.Sql && mapDeepEqual a.BindVariables b.BindVariables

/-- Whether `big` binds every name of `small` to the same value and binds at
least one name that `small` does not. -/
def isStrictSuperset (big small : BindVariables) : Bool :=
  small.all (fun p => big.lookup p.1 == some p.2) &&
    big.any (fun p => small.lookup p.1 == none)

/-! ## The test log -/

/-- An argument handed to `t.Errorf`. -/
inductive Arg where
  | int64 (v : Int)
  | string (v : String)
  | bindVars (v : BindVariables)
  | boundQuery (v : BoundQuery)
  | goError (v : GoError)
  deriving DecidableEq, Repr

/-- One call of `t.Errorf`: the format string and its arguments. -/
structure Report where
  format : String
  args : List Arg
  deriving DecidableEq, Repr

/-- The `testing.T` the service reports to: the failures recorded so far. -/
structure T where
  reports : List Report := []
  deriving DecidableEq, Repr

/-- `t.Errorf`: records a failure; the caller goes on. -/
def T.Errorf (t : T) (format : String) (args : List Arg) : T :=
  { t with reports := t.reports ++ [{ format := format, args := args }] }

/-- The `fakeQueryService` struct. -/
structure fakeQueryService where
  t : T
  deriving DecidableEq, Repr

/-! ## Constants of the suite -/

/-- `testSessionId`. -/
def testSessionId : Int := 5678

/-- `beginTransactionId`. -/
def beginTransactionId : Int := 9990

/-- `commitTransactionId`. -/
def commitTransactionId : Int := 999044

/-- `rollbackTransactionId`. -/
def rollbackTransactionId : Int := 999044

/-- `streamExecuteQuery`. -/
def streamExecuteQuery : String := "streamExecuteQuery"

/-- `streamExecuteBindVars`. -/
def streamExecuteBindVars : BindVariables := [("bind1", .int64 93848000)]

/-- `streamExecuteTransactionId`. -/
def streamExecuteTransactionId : Int := 6789992

/-- `streamExecuteQueryResult1`: the two fields, no rows. -/
def streamExecuteQueryResult1 : QueryResult :=
  { Fields := [{ Name := "field1", Typ := 42 }, { Name := "field2", Typ := 73 }] }

/-- `streamExecuteQueryResult2`: the two rows, no fields. -/
def streamExecuteQueryResult2 : QueryResult :=
  { Rows := [[⟨"row1 value1"⟩, ⟨"row1 value2"⟩], [⟨"row2 value1"⟩, ⟨"row2 value2"⟩]] }

/-- `splitQueryBoundQuery`. -/
def splitQueryBoundQuery : BoundQuery :=
  { Sql := "splitQuery", BindVariables := [("bind1", .int64 43)] }

/-- `splitQuerySplitCount`. -/
def splitQuerySplitCount : Int := 372

/-- `splitQueryQuerySplitList`. -/
def splitQueryQuerySplitList : List QuerySplit :=
  [{ Query := { Sql := "splitQuery",
                BindVariables := [("bind1", .int64 43), ("keyspace_id", .int64 3333)] },
     RowCount := 4456 }]

/-! ## The service -/

/-- `fakeQueryService.Begin`: the service afterwards, the `txInfo` it fills in
and the returned error. -/
def fakeQueryService.Begin (f : fakeQueryService) (session : Session) :
    fakeQueryService × TransactionInfo × Option GoError :=
  let f : fakeQueryService :=
    if session.SessionId ≠ testSessionId then
      { f with t := (f.t.Errorf "Begin: invalid SessionId: got %v expected %v"
          [.int64 session.SessionId, .int64 testSessionId]) }
    else f
  let f : fakeQueryService :=
    if session.TransactionId ≠ 0 then
      { f with t := (f.t.Errorf "Begin: invalid TransactionId: got %v expected 0"
          [.int64 session.TransactionId]) }
    else f
  (f, { TransactionId := beginTransactionId }, none)

/-- `fakeQueryService.Commit`: the service afterwards and the returned
error. -/
def fakeQueryService.Commit (f : fakeQueryService) (session : Session) :
    fakeQueryService × Option GoError :=
  let f : fakeQueryService :=
    if session.SessionId ≠ testSessionId then
      { f with t := (f.t.Errorf "Commit: invalid SessionId: got %v expected %v"
          [.int64 session.SessionId, .int64 testSessionId]) }
    else f
  let f : fakeQueryService :=
    if session.TransactionId ≠ commitTransactionId then
      { f with t := (f.t.Errorf "Commit: invalid TransactionId: got %v expected %v"
          [.int64 session.TransactionId, .int64 commitTransactionId]) }
    else f
  (f, none)

/-- `fakeQueryService.Rollback`: the service afterwards and the returned
error. -/
def fakeQueryService.Rollback (f : fakeQueryService) (session : Session) :
    fakeQueryService × Option GoError :=
  let f : fakeQueryService :=
    if session.SessionId ≠ testSessionId then
      { f with t := (f.t.Errorf "Rollback: invalid SessionId: got %v expected %v"
          [.int64 session.SessionId, .int64 testSessionId]) }
    else f
  let f : fakeQueryService :=
    if session.TransactionId ≠ rollbackTransactionId then
      { f with t := (f.t.Errorf "Rollback: invalid TransactionId: got %v expected %v"
          [.int64 session.TransactionId, .int64 rollbackTransactionId]) }
    else f
  (f, none)

/-- `fakeQueryService.StreamExecute`.  The callback `sendReply` may keep state
of its own (`σ`): it takes that state and a fragment and returns the state
afterwards and its error.  The result is the service afterwards, the state of
the callback afterwards and the returned error. -/
def fakeQueryService.StreamExecute {σ : Type} (f : fakeQueryService) (query : Query)
    (sendReply : σ → QueryResult → σ × Option GoError) (s : σ) :
    fakeQueryService × σ × Option GoError :=
  let f : fakeQueryService :=
    if query.Sql ≠ streamExecuteQuery then
      { f with t := (f.t.Errorf "invalid StreamExecute.Query.Sql: got %v expected %v"
          [.string query.Sql, .string streamExecuteQuery]) }
    else f
  let f : fakeQueryService :=
    if !mapDeepEqual query.BindVariables streamExecuteBindVars then
      { f with t := (f.t.Errorf "invalid StreamExecute.Query.BindVariables: got %v expected %v"
          [.bindVars query.BindVariables, .bindVars streamExecuteBindVars]) }
    else f
  let f : fakeQueryService :=
    if query.SessionId ≠ testSessionId then
      { f with t := (f.t.Errorf "invalid StreamExecute.Query.SessionId: got %v expected %v"
          [.int64 query.SessionId, .int64 testSessionId]) }
    else f
  let f : fakeQueryService :=
    if query.TransactionId ≠ streamExecuteTransactionId then
      { f with t := (f.t.Errorf "invalid StreamExecute.Query.TransactionId: got %v expected %v"
          [.int64 query.TransactionId, .int64 streamExecuteTransactionId]) }
    else f
  let r1 := sendReply s streamExecuteQueryResult1
  let f : fakeQueryService :=
    match r1.2 with
    | some err => { f with t := (f.t.Errorf "sendReply1 failed: %v" [.goError err]) }
    | none => f
  let r2 := sendReply r1.1 streamExecuteQueryResult2
  let f : fakeQueryService :=
    match r2.2 with
    | some err => { f with t := (f.t.Errorf "sendReply2 failed: %v" [.goError err]) }
    | none => f
  (f, r2.1, none)

/-- A callback that never fails and keeps the fragments it was handed, in the
order of the calls. -/
def recordReply (sent : List QueryResult) (qr : QueryResult) :
    List QueryResult × Option GoError :=
  (sent ++ [qr], none)

/-- `fakeQueryService.SplitQuery`: the service afterwards, the reply it fills
in and the returned error. -/
def fakeQueryService.SplitQuery (f : fakeQueryService) (req : SplitQueryRequest) :
    fakeQueryService × SplitQueryResult × Option GoError :=
  let f : fakeQueryService :=
    if !boundQueryDeepEqual req.Query splitQueryBoundQuery then
      { f with t := (f.t.Errorf "invalid SplitQuery.SplitQueryRequest.Query: got %v expected %v"
          [.boundQuery req.Query, .boundQuery splitQueryBoundQuery]) }
    else f
  let f : fakeQueryService :=
    if req.SplitCount ≠ splitQuerySplitCount then
      { f with t := (f.t.Errorf "invalid SplitQuery.SplitQueryRequest.SplitCount: got %v expected %v"
          [.int64 req.SplitCount, .int64 splitQuerySplitCount]) }
    else f
  (f, { Queries := splitQueryQuerySplitList }, none)

/-! ## Sample inputs -/

/-- A service whose test log is empty. -/
def cleanService : fakeQueryService := { t := {} }

/-- The session that `testBegin` sends: the established session id and no
transaction. -/
def beginSession : Session := { SessionId := testSessionId, TransactionId := 0 }

/-- The session that `testCommit` sends. -/
def commitSession : Session :=
  { SessionId := testSessionId, TransactionId := commitTransactionId }

/-- A session with neither the established session id nor an issued
transaction id. -/
def strangerSession : Session := { SessionId := 1, TransactionId := 2 }

/-- The request that `testStreamExecute` sends. -/
def streamExecuteRequest : Query :=
  { Sql := streamExecuteQuery, BindVariables := streamExecuteBindVars,
    SessionId := testSessionId, TransactionId := streamExecuteTransactionId }

/-- The request that `testSplitQuery` sends. -/
def splitQueryRequest : SplitQueryRequest :=
  { Query := splitQueryBoundQuery, SplitCount := splitQuerySplitCount }

end tabletconntest

namespace fakesqldb

/-! ## Auxiliary facts -/

theorem copy_nil_dst {α : Type} (src : List α) : copy [] src = [] := by
  simp [copy]

theorem uint64_of_nonneg (x : Int) (h0 : 0 ≤ x) (h1 : x < 2 ^ 64) : uint64 x = x.toNat := by
  unfold uint64
  rw [Int.emod_eq_of_lt h0 h1]

theorem int_of_small (x : Nat) (h : x < 2 ^ 63) : int x = (x : Int) := by
  unfold int
  have h1 : x % 2 ^ 64 = x := Nat.mod_eq_of_lt (by omega)
  rw [h1, if_pos h]

/-- The row loop, run over indices that are all in range, fills `rows` with the
source rows. -/
theorem copyRows_in_range (src : List (List Value)) :
    ∀ (todo i : Nat) (rows : List (List Value)), i + todo ≤ src.length →
      rows.length = i + todo → rows.take i = src.take i →
      copyRows src todo i rows = .ret (src.take (i + todo)) := by
  intro todo
  induction todo with
  | zero =>
    intro i rows _ hlen htake
    have h1 : rows.take i = rows := List.take_of_length_le (by omega)
    simp only [copyRows, Nat.add_zero]
    rw [← htake, h1]
  | succ todo ih =>
    intro i rows hsrc hlen htake
    have hi : i < src.length := by omega
    have hr : i < rows.length := by omega
    have hstep : (rows.set i src[i]).take (i + 1) = src.take (i + 1) := by
      rw [List.take_succ, List.take_succ, List.set_take,
        List.set_eq_of_length_le (by simp), htake]
      simp [hi, hr]
    have hgo := ih (i + 1) (rows.set i src[i]) (by omega) (by simp; omega) hstep
    have hidx : i + 1 + todo = i + (todo + 1) := by omega
    rw [hidx] at hgo
    simp only [copyRows, List.getElem?_eq_getElem hi]
    exact hgo

/-- The loop as `ExecuteFetch` starts it: over a fresh slice of `n` rows. -/
theorem copyRows_make (src : List (List Value)) (n : Nat) (h : n ≤ src.length) :
    copyRows src n 0 (List.replicate n []) = .ret (src.take n) := by
  have := copyRows_in_range src n 0 (List.replicate n []) (by omega) (by simp) (by simp)
  simpa using this

/-- What `ExecuteFetch` returns when it gets past the row limit and the
registered result has the rows it announces: the `Fields` of the reply are
the ones of a fresh `QueryResult`, whatever `wantfields` is. -/
theorem ExecuteFetch_past_limit (heap : Heap) (conn : Conn) (query : String)
    (maxrows : Int) (wantfields : Bool) (result : QueryResult)
    (hopen : conn.isClosed = false)
    (hreg : (heap conn.db).GetQuery query = some result)
    (hlimit : result.RowsAffected ≤ uint64 maxrows)
    (hrows : (int result.RowsAffected).toNat ≤ result.Rows.length) :
    conn.ExecuteFetch heap query maxrows wantfields =
      .ret (.ok { Fields := [], RowsAffected := result.RowsAffected,
                  InsertId := result.InsertId,
                  Rows := result.Rows.take (int result.RowsAffected).toNat }) := by
  have hlim : ¬ result.RowsAffected > uint64 maxrows := by omega
  unfold Conn.ExecuteFetch
  simp only [Conn.IsClosed, hopen, hreg, hlim, copy_nil_dst]
  by_cases hpos : int result.RowsAffected > 0
  · simp [hpos, copyRows_make _ _ hrows]
  · have hz : (int result.RowsAffected).toNat = 0 := by omega
    simp [hpos, hz]

/-- `FetchNext` on a cursor with rows left returns the row at the offset and
advances the offset by one. -/
theorem FetchNext_row (conn : Conn) (cur : QueryResult) (i : Nat)
    (hcur : conn.curQueryResult = some cur) (hrow : conn.curQueryRow = (i : Int))
    (hi : i < cur.Rows.length) :
    conn.FetchNext =
      .ret ((some cur.Rows[i], none), { conn with curQueryRow := (i : Int) + 1 }) := by
  unfold Conn.FetchNext
  have h1 : ¬ ((cur.Rows.length : Int) ≤ (i : Int)) := by omega
  have h2 : ¬ ((i : Int) < 0) := by omega
  simp [hcur, hrow, h1, h2, List.getElem?_eq_getElem hi]

/-- `FetchNext` on an exhausted cursor returns `(nil, nil)` and changes
nothing. -/
theorem FetchNext_end (conn : Conn) (cur : QueryResult)
    (hcur : conn.curQueryResult = some cur)
    (hrow : (cur.Rows.length : Int) ≤ conn.curQueryRow) :
    conn.FetchNext = .ret ((none, none), conn) := by
  unfold Conn.FetchNext
  simp [hcur, hrow]

theorem fetchMany_end (conn : Conn) (cur : QueryResult)
    (hcur : conn.curQueryResult = some cur)
    (hrow : (cur.Rows.length : Int) ≤ conn.curQueryRow) (k : Nat) :
    fetchMany k conn = .ret (List.replicate k (none, none), conn) := by
  induction k with
  | zero => rfl
  | succ k ih => simp [fetchMany, FetchNext_end conn cur hcur hrow, ih, List.replicate_succ]

/-- Draining a cursor that stands at offset `i`: the remaining rows come out in
order, then `k` end-of-stream replies, and the offset stops at the row
count. -/
theorem fetchMany_drain (cur : QueryResult) (k : Nat) :
    ∀ (m i : Nat) (conn : Conn), conn.curQueryResult = some cur →
      conn.curQueryRow = (i : Int) → i + m = cur.Rows.length →
      fetchMany (m + k) conn =
        .ret ((cur.Rows.drop i).map (fun row => (some row, none))
                ++ List.replicate k (none, none),
              { conn with curQueryRow := (cur.Rows.length : Int) }) := by
  intro m
  induction m with
  | zero =>
    intro i conn hcur hrow him
    have hi : i = cur.Rows.length := by omega
    have hc : ({ conn with curQueryRow := (cur.Rows.length : Int) } : Conn) = conn := by
      cases conn; simp_all
    rw [hc, Nat.zero_add, fetchMany_end conn cur hcur (by omega) k, hi]
    simp
  | succ m ih =>
    intro i conn hcur hrow him
    have hi : i < cur.Rows.length := by omega
    have hnext := ih (i + 1) { conn with curQueryRow := (i : Int) + 1 } hcur
      (by simp) (by omega)
    have hidx : m + 1 + k = (m + k) + 1 := by omega
    rw [hidx]
    simp only [fetchMany, FetchNext_row conn cur i hcur hrow hi, hnext]
    rw [List.drop_eq_getElem_cons hi, List.map_cons, List.cons_append]

/-- For a limit that is not negative, the row-limit error is returned exactly
when `rows_affected` is greater than the limit. -/
theorem ExecuteFetch_row_limit_nonneg (heap : Heap) (conn : Conn) (query : String)
    (maxrows : Int) (wantfields : Bool) (result : QueryResult)
    (hopen : conn.isClosed = false)
    (hreg : (heap conn.db).GetQuery query = some result)
    (h0 : 0 ≤ maxrows) (h1 : maxrows < 2 ^ 63) :
    conn.ExecuteFetch heap query maxrows wantfields = .ret (.error (.rowCountExceeded maxrows))
      ↔ (result.RowsAffected : Int) > maxrows := by
  have hu : uint64 maxrows = maxrows.toNat := uint64_of_nonneg maxrows h0 (by omega)
  unfold Conn.ExecuteFetch
  simp only [Conn.IsClosed, hopen, hreg, hu]
  by_cases hlim : result.RowsAffected > maxrows.toNat
  · have : (result.RowsAffected : Int) > maxrows := by omega
    simp [hlim, this]
  · have hle : ¬ (result.RowsAffected : Int) > maxrows := by omega
    simp only [hlim, hle, iff_false, Bool.false_eq_true, if_false]
    intro h
    cases wantfields <;> simp only [Bool.false_eq_true, if_false, if_true] at h <;>
      repeat' (first | (simp at h; done) | split at h)

/-- `FetchNext` writes to the cursor offset only. -/
theorem FetchNext_isClosed (conn conn1 : Conn) (out : Option (List Value) × Option Err)
    (h : conn.FetchNext = .ret (out, conn1)) : conn1.isClosed = conn.isClosed := by
  unfold Conn.FetchNext at h
  cases hc : conn.curQueryResult with
  | none => simp [hc] at h
  | some cur =>
    simp only [hc] at h
    split_ifs at h
    all_goals first
      | (cases h; rfl)
      | (split at h <;> first | (cases h; rfl) | cases h)

/-- `SetCharset` writes to the charset only. -/
theorem SetCharset_isClosed (conn conn1 : Conn) (cs : Charset) (err : Option Err)
    (h : conn.SetCharset cs = .ret (err, conn1)) : conn1.isClosed = conn.isClosed := by
  unfold Conn.SetCharset at h
  repeat' split at h
  all_goals first
    | (simp only [Res.ret.injEq, Prod.mk.injEq] at h; obtain ⟨_, rfl⟩ := h; rfl)
    | simp at h

/-- A call other than `Close` leaves the closed flag as it is. -/
theorem after_isClosed (heap : Heap) (conn : Conn) (op : Op) (hop : op ≠ .Close) :
    (conn.after heap op).isClosed = conn.isClosed := by
  cases op with
  | Close => exact absurd rfl hop
  | ExecuteStreamFetch query =>
    simp only [Conn.after, Conn.ExecuteStreamFetch]
    split <;> rfl
  | FetchNext =>
    simp only [Conn.after]
    split
    · next out conn1 heq => exact FetchNext_isClosed conn conn1 out heq
    · rfl
  | SetCharset cs =>
    simp only [Conn.after]
    split
    · next err conn1 heq => exact SetCharset_isClosed conn conn1 cs err heq
    · rfl
  | _ => rfl

/-- No call opens a closed connection. -/
theorem after_closed (heap : Heap) (conn : Conn) (op : Op) (h : conn.isClosed = true) :
    (conn.after heap op).isClosed = true := by
  by_cases hop : op = .Close
  · subst hop; rfl
  · rw [after_isClosed heap conn op hop, h]

theorem afterAll_closed (calls : List (Heap × Op)) :
    ∀ conn : Conn, conn.isClosed = true → (conn.afterAll calls).isClosed = true := by
  induction calls with
  | nil => intro conn h; exact h
  | cons call rest ih =>
    intro conn h
    obtain ⟨heap, op⟩ := call
    exact ih _ (after_closed heap conn op h)

/-- A stream started on an open connection drains the rows of the registered
result, whatever its `RowsAffected`. -/
theorem stream_drain (heap : Heap) (conn : Conn) (sql : String) (result : QueryResult)
    (k : Nat) (hopen : conn.isClosed = false)
    (hreg : (heap conn.db).GetQuery sql = some result) :
    conn.ExecuteStreamFetch heap sql =
      (none, { conn with curQueryResult := some result, curQueryRow := 0 }) ∧
    fetchMany (result.Rows.length + k) (conn.ExecuteStreamFetch heap sql).2 =
      .ret (result.Rows.map (fun row => (some row, none)) ++ List.replicate k (none, none),
            { conn with curQueryResult := some result,
                        curQueryRow := (result.Rows.length : Int) }) := by
  have hs : conn.ExecuteStreamFetch heap sql =
      (none, { conn with curQueryResult := some result, curQueryRow := 0 }) := by
    simp [Conn.ExecuteStreamFetch, Conn.IsClosed, hopen, hreg]
  refine ⟨hs, ?_⟩
  rw [hs]
  have h := fetchMany_drain result k result.Rows.length 0
    { conn with curQueryResult := some result, curQueryRow := 0 } rfl rfl (by omega)
  simpa using h

/-- On a connection whose `charset` pointer is set, `SetCharset` stores the
charset and returns a nil error, the `GetCharset` that follows returns it, and
no other field of the connection changes. -/
theorem SetCharset_with_charset (conn : Conn) (old cs : Charset)
    (hset : conn.charset = some old) :
    conn.SetCharset cs = .ret (none, { conn with charset := some cs }) ∧
    ({ conn with charset := some cs } : Conn).GetCharset = .ret (cs, none) := by
  constructor
  · simp [Conn.SetCharset, hset]
  · rfl

/-! ## ExecuteFetch -/

/-- C1 (code defect): at a registered result with one field, one row and
`rows_affected = 1`, `ExecuteFetch(sql, 1, true)` on an open connection returns
`rows_affected`, `insert_id` and the rows as registered, but an empty `Fields`
sequence: `copy(qr.Fields, result.Fields)` writes into a slice of length zero.
The returned fields differ from the registered, non-empty ones. -/
theorem ExecuteFetch_wantfields_returns_no_fields :
    (NewFakeSqlDBConn 0 5).isClosed = false ∧
    (sampleHeap (NewFakeSqlDBConn 0 5).db).GetQuery "SELECT 1" = some selectOne ∧
    selectOne.RowsAffected = selectOne.Rows.length ∧
    (1 : Int) ≥ (selectOne.RowsAffected : Int) ∧
    (NewFakeSqlDBConn 0 5).ExecuteFetch sampleHeap "SELECT 1" 1 true =
      .ret (.ok { Fields := [], RowsAffected := 1, InsertId := 7, Rows := [[⟨"1"⟩]] }) ∧
    selectOne.Fields = [⟨"id", 3⟩] ∧
    (NewFakeSqlDBConn 0 5).ExecuteFetch sampleHeap "SELECT 1" 1 true ≠ .ret (.ok selectOne) := by
  refine ⟨rfl, rfl, rfl, by decide, rfl, rfl, ?_⟩
  have h : (NewFakeSqlDBConn 0 5).ExecuteFetch sampleHeap "SELECT 1" 1 true =
      .ret (.ok { Fields := [], RowsAffected := 1, InsertId := 7, Rows := [[⟨"1"⟩]] }) := rfl
  rw [h]
  simp [selectOne]

/-- C2 (code defect): with `max_rows = -1` and a registered result of one row
(`rows_affected = 1 > -1`), `ExecuteFetch` on an open connection does not fail
with the row-limit error: the limit is compared as `uint64(-1) = 2^64 - 1`, and
the call returns the row. -/
theorem ExecuteFetch_negative_maxrows_not_rejected :
    (NewFakeSqlDBConn 0 5).isClosed = false ∧
    (sampleHeap (NewFakeSqlDBConn 0 5).db).GetQuery "SELECT 1" = some selectOne ∧
    (selectOne.RowsAffected : Int) > -1 ∧
    uint64 (-1) = 2 ^ 64 - 1 ∧
    (NewFakeSqlDBConn 0 5).ExecuteFetch sampleHeap "SELECT 1" (-1) false =
      .ret (.ok { Fields := [], RowsAffected := 1, InsertId := 7, Rows := [[⟨"1"⟩]] }) ∧
    (NewFakeSqlDBConn 0 5).ExecuteFetch sampleHeap "SELECT 1" (-1) false ≠
      .ret (.error (.rowCountExceeded (-1))) := by
  refine ⟨rfl, rfl, by decide, by decide, rfl, ?_⟩
  have h : (NewFakeSqlDBConn 0 5).ExecuteFetch sampleHeap "SELECT 1" (-1) false =
      .ret (.ok { Fields := [], RowsAffected := 1, InsertId := 7, Rows := [[⟨"1"⟩]] }) := rfl
  rw [h]
  simp

/-! ## Streaming -/

/-- C3: on an open connection in any cursor state, `ExecuteStreamFetch` of a
registered sql whose result has `rows_affected = len(rows) = n` returns no
error; the next `n` calls of `FetchNext` return the registered rows in order,
each with a nil error; and the `k` calls after those all return `(nil, nil)`
and leave the cursor at offset `n`, for every `k`. -/
theorem stream_yields_rows_then_end (heap : Heap) (conn : Conn) (sql : String)
    (result : QueryResult) (k : Nat)
    (hopen : conn.isClosed = false)
    (hreg : (heap conn.db).GetQuery sql = some result)
    (_hinv : result.RowsAffected = result.Rows.length) :
    (conn.ExecuteStreamFetch heap sql).1 = none ∧
    fetchMany (result.Rows.length + k) (conn.ExecuteStreamFetch heap sql).2 =
      .ret (result.Rows.map (fun row => (some row, none)) ++ List.replicate k (none, none),
            { conn with curQueryResult := some result,
                        curQueryRow := (result.Rows.length : Int) }) := by
  have hs : conn.ExecuteStreamFetch heap sql =
      (none, { conn with curQueryResult := some result, curQueryRow := 0 }) := by
    simp [Conn.ExecuteStreamFetch, Conn.IsClosed, hopen, hreg]
  rw [hs]
  refine ⟨rfl, ?_⟩
  have h := fetchMany_drain result k result.Rows.length 0
    { conn with curQueryResult := some result, curQueryRow := 0 } rfl rfl (by omega)
  simpa using h

/-- C3, at a connection that is in the middle of an earlier stream. -/
theorem stream_yields_rows_then_end_witness :
    streamingConn.isClosed = false ∧
    (sampleHeap streamingConn.db).GetQuery "SELECT 2" = some selectTwo ∧
    selectTwo.RowsAffected = selectTwo.Rows.length ∧
    (streamingConn.ExecuteStreamFetch sampleHeap "SELECT 2").1 = none ∧
    fetchMany (selectTwo.Rows.length + 3) (streamingConn.ExecuteStreamFetch sampleHeap "SELECT 2").2 =
      .ret (selectTwo.Rows.map (fun row => (some row, none)) ++ List.replicate 3 (none, none),
            { streamingConn with curQueryResult := some selectTwo,
                                 curQueryRow := (selectTwo.Rows.length : Int) }) :=
  ⟨rfl, rfl, rfl,
    stream_yields_rows_then_end sampleHeap streamingConn "SELECT 2" selectTwo 3 rfl rfl rfl⟩

/-- C4 (code defect): on a connection fresh from `NewFakeSqlDBConn`, which has
no cursor, `FetchNext` panics with a nil dereference: it reads
`conn.curQueryResult.Rows` before it tests `conn.curQueryResult == nil`. It
does not return the clean end-of-stream `(nil, nil)`. -/
theorem FetchNext_without_cursor_panics (db : DBRef) (id : Nat) :
    (NewFakeSqlDBConn db id).curQueryResult = none ∧
    (NewFakeSqlDBConn db id).FetchNext = .panic .nilDereference ∧
    (NewFakeSqlDBConn db id).FetchNext ≠ .ret ((none, none), NewFakeSqlDBConn db id) := by
  have h : (NewFakeSqlDBConn db id).FetchNext = .panic .nilDereference := rfl
  refine ⟨rfl, h, ?_⟩
  rw [h]
  simp

/-- C5: on an open connection, for a sql text with no entry in the store,
`ExecuteFetch` returns no error and the empty result (no fields,
`rows_affected = 0`, `insert_id = 0`, no rows) for every `max_rows` and
`want_fields`; `ExecuteStreamFetch` returns no error and the `FetchNext` that
follows returns `(nil, nil)`. -/
theorem unknown_query_is_soft_miss (heap : Heap) (conn : Conn) (sql : String)
    (maxrows : Int) (wantfields : Bool)
    (hopen : conn.isClosed = false)
    (hmiss : (heap conn.db).GetQuery sql = none) :
    conn.ExecuteFetch heap sql maxrows wantfields =
      .ret (.ok { Fields := [], RowsAffected := 0, InsertId := 0, Rows := [] }) ∧
    (conn.ExecuteStreamFetch heap sql).1 = none ∧
    (conn.ExecuteStreamFetch heap sql).2.FetchNext =
      .ret ((none, none), (conn.ExecuteStreamFetch heap sql).2) := by
  have hs : conn.ExecuteStreamFetch heap sql =
      (none, { conn with curQueryResult := some {}, curQueryRow := 0 }) := by
    simp [Conn.ExecuteStreamFetch, Conn.IsClosed, hopen, hmiss]
  refine ⟨?_, ?_, ?_⟩
  · simp [Conn.ExecuteFetch, Conn.IsClosed, hopen, hmiss]
  · rw [hs]
  · rw [hs]
    exact FetchNext_end _ {} rfl (by simp)

/-- C5, at a sql text that was registered and then deleted, and at one that
was never registered. -/
theorem unknown_query_is_soft_miss_witness :
    (streamingConn.isClosed = false ∧
      (deletedHeap streamingConn.db).GetQuery "SELECT 1" = none ∧
      streamingConn.ExecuteFetch deletedHeap "SELECT 1" (-4) true =
        .ret (.ok { Fields := [], RowsAffected := 0, InsertId := 0, Rows := [] }) ∧
      (streamingConn.ExecuteStreamFetch deletedHeap "SELECT 1").1 = none ∧
      (streamingConn.ExecuteStreamFetch deletedHeap "SELECT 1").2.FetchNext =
        .ret ((none, none), (streamingConn.ExecuteStreamFetch deletedHeap "SELECT 1").2)) ∧
    ((sampleHeap streamingConn.db).GetQuery "select 1" = none ∧
      streamingConn.ExecuteFetch sampleHeap "select 1" 0 false =
        .ret (.ok { Fields := [], RowsAffected := 0, InsertId := 0, Rows := [] })) :=
  ⟨⟨rfl, rfl, unknown_query_is_soft_miss deletedHeap streamingConn "SELECT 1" (-4) true rfl rfl⟩,
    rfl, (unknown_query_is_soft_miss sampleHeap streamingConn "select 1" 0 false rfl rfl).1⟩

/-- C6: on a closed connection, for every sql text, `max_rows` and
`want_fields`, `ExecuteFetch`, `ExecuteFetchMap` and `ExecuteStreamFetch` each
return the error whose text is "Connection is closed" and no result, and the
failed `ExecuteStreamFetch` leaves the connection, cursor included, as it
was. -/
theorem closed_connection_rejects_fetches (heap : Heap) (conn : Conn) (sql : String)
    (maxrows : Int) (wantfields : Bool)
    (hclosed : conn.isClosed = true) :
    conn.ExecuteFetch heap sql maxrows wantfields = .ret (.error .connectionClosed) ∧
    conn.ExecuteFetchMap heap sql = .ret (.error .connectionClosed) ∧
    conn.ExecuteStreamFetch heap sql = (some .connectionClosed, conn) ∧
    Err.format .connectionClosed = "Connection is closed" := by
  have hf : ∀ m w, conn.ExecuteFetch heap sql m w = .ret (.error .connectionClosed) := by
    intro m w
    simp [Conn.ExecuteFetch, Conn.IsClosed, hclosed]
  refine ⟨hf _ _, ?_, ?_, rfl⟩
  · simp [Conn.ExecuteFetchMap, hf]
  · simp [Conn.ExecuteStreamFetch, Conn.IsClosed, hclosed]

/-- C6, at a connection closed in the middle of a stream, with a registered
sql text. -/
theorem closed_connection_rejects_fetches_witness :
    streamingConn.Close.isClosed = true ∧
    streamingConn.Close.ExecuteFetch sampleHeap "SELECT 1" 10 true =
      .ret (.error .connectionClosed) ∧
    streamingConn.Close.ExecuteFetchMap sampleHeap "SELECT 1" =
      .ret (.error .connectionClosed) ∧
    streamingConn.Close.ExecuteStreamFetch sampleHeap "SELECT 1" =
      (some .connectionClosed, streamingConn.Close) ∧
    Err.format .connectionClosed = "Connection is closed" :=
  ⟨rfl, closed_connection_rejects_fetches sampleHeap streamingConn.Close "SELECT 1" 10 true rfl⟩

/-! ## ExecuteFetchMap -/

/-- C7 (code defect): at a registered result with `rows_affected = 1`, one row
of one value and one field, `ExecuteFetchMap` on an open connection does not
return the map from the field name to the value: the reply of `ExecuteFetch`
carries no fields, so the call fails with the column-count error (0 column
names, 1 expected). -/
theorem ExecuteFetchMap_one_row_fails :
    (NewFakeSqlDBConn 0 5).isClosed = false ∧
    (sampleHeap (NewFakeSqlDBConn 0 5).db).GetQuery "SELECT 1" = some selectOne ∧
    selectOne.RowsAffected = 1 ∧
    selectOne.Rows = [[⟨"1"⟩]] ∧
    selectOne.Fields.length = ([⟨"1"⟩] : List Value).length ∧
    (NewFakeSqlDBConn 0 5).ExecuteFetchMap sampleHeap "SELECT 1" =
      .ret (.error (.columnNames "SELECT 1" 0 1)) :=
  ⟨rfl, rfl, rfl, rfl, rfl, rfl⟩

/-- C8 (the claim as stated fails): at a registered result with two rows and
`rows_affected = 2`, `ExecuteFetchMap` on an open connection fails with the
row-limit error "Row count exceeded 1", which is not the "returned N rows,
expected 1" error for any N. -/
theorem ExecuteFetchMap_two_rows_not_row_count_mismatch :
    (NewFakeSqlDBConn 0 5).isClosed = false ∧
    (sampleHeap (NewFakeSqlDBConn 0 5).db).GetQuery "SELECT 2" = some selectTwo ∧
    selectTwo.RowsAffected = selectTwo.Rows.length ∧
    selectTwo.Rows.length = 2 ∧
    (NewFakeSqlDBConn 0 5).ExecuteFetchMap sampleHeap "SELECT 2" =
      .ret (.error (.rowCountExceeded 1)) ∧
    ¬ ∃ n, (NewFakeSqlDBConn 0 5).ExecuteFetchMap sampleHeap "SELECT 2" =
      .ret (.error (.rowsReturned "SELECT 2" n)) := by
  have h : (NewFakeSqlDBConn 0 5).ExecuteFetchMap sampleHeap "SELECT 2" =
      .ret (.error (.rowCountExceeded 1)) := rfl
  refine ⟨rfl, rfl, rfl, rfl, h, ?_⟩
  rw [h]
  simp

/-- C8 (amended): on an open connection, for a registered result with
`rows_affected = len(rows)` and a row count other than 1, `ExecuteFetchMap`
fails: with the "returned 0 rows, expected 1" error when there are no rows, and
with the row-limit error "Row count exceeded 1" when there are two rows or
more. -/
theorem ExecuteFetchMap_row_count_not_one (heap : Heap) (conn : Conn) (sql : String)
    (result : QueryResult)
    (hopen : conn.isClosed = false)
    (hreg : (heap conn.db).GetQuery sql = some result)
    (hinv : result.RowsAffected = result.Rows.length)
    (hne : result.Rows.length ≠ 1) :
    conn.ExecuteFetchMap heap sql =
      .ret (.error (if result.Rows.length = 0 then .rowsReturned sql 0
                    else .rowCountExceeded 1)) := by
  have hu : uint64 1 = 1 := by decide
  by_cases h0 : result.Rows.length = 0
  · have hra : result.RowsAffected = 0 := by omega
    have hi : int result.RowsAffected = 0 := by rw [hra]; decide
    have hf := ExecuteFetch_past_limit heap conn sql 1 true result hopen hreg
      (by omega) (by rw [hi]; simp)
    rw [hi] at hf
    simp [Conn.ExecuteFetchMap, hf, h0]
  · have hlim : result.RowsAffected > uint64 1 := by omega
    have hf : conn.ExecuteFetch heap sql 1 true = .ret (.error (.rowCountExceeded 1)) := by
      simp [Conn.ExecuteFetch, Conn.IsClosed, hopen, hreg, hlim]
    simp [Conn.ExecuteFetchMap, hf, h0]

/-- C8 (amended), at a result registered with two rows and at one registered
with none. -/
theorem ExecuteFetchMap_row_count_not_one_witness :
    (streamingConn.isClosed = false ∧
      (sampleHeap streamingConn.db).GetQuery "SELECT 2" = some selectTwo ∧
      selectTwo.RowsAffected = selectTwo.Rows.length ∧
      selectTwo.Rows.length ≠ 1 ∧
      streamingConn.ExecuteFetchMap sampleHeap "SELECT 2" =
        .ret (.error (.rowCountExceeded 1))) ∧
    ((sampleHeap streamingConn.db).GetQuery "SELECT 0" = some selectNone ∧
      streamingConn.ExecuteFetchMap sampleHeap "SELECT 0" =
        .ret (.error (.rowsReturned "SELECT 0" 0))) :=
  ⟨⟨rfl, rfl, rfl, by decide,
      ExecuteFetchMap_row_count_not_one sampleHeap streamingConn "SELECT 2" selectTwo
        rfl rfl rfl (by decide)⟩,
    rfl,
    ExecuteFetchMap_row_count_not_one sampleHeap streamingConn "SELECT 0" selectNone
      rfl rfl rfl (by decide)⟩

/-! ## The store -/

/-- C9: the store is a last-write-wins map on the exact sql text. After
`AddQuery(sql, r1)` and `AddQuery(sql, r2)`, `GetQuery(sql)` finds `r2`; after
a `DeleteQuery(sql)` it finds nothing; `DeleteQuery` of an absent sql leaves
the store as it was; and `AddQuery` and `DeleteQuery` change neither the lookup
of any other sql text nor the fault flag. -/
theorem store_last_write_wins (db : DB) (sql : String) (r1 r2 : QueryResult) :
    ((db.AddQuery sql r1).AddQuery sql r2).GetQuery sql = some r2 ∧
    (((db.AddQuery sql r1).AddQuery sql r2).DeleteQuery sql).GetQuery sql = none ∧
    (db.GetQuery sql = none → db.DeleteQuery sql = db) ∧
    (∀ other : String, other ≠ sql →
      (db.AddQuery sql r1).GetQuery other = db.GetQuery other ∧
      ((db.AddQuery sql r1).AddQuery sql r2).GetQuery other = db.GetQuery other ∧
      (db.DeleteQuery sql).GetQuery other = db.GetQuery other) ∧
    (db.AddQuery sql r1).isConnFail = db.isConnFail ∧
    ((db.AddQuery sql r1).AddQuery sql r2).isConnFail = db.isConnFail ∧
    (db.DeleteQuery sql).isConnFail = db.isConnFail := by
  refine ⟨?_, ?_, ?_, ?_, rfl, rfl, rfl⟩
  · simp [DB.AddQuery, DB.GetQuery]
  · simp [DB.DeleteQuery, DB.GetQuery]
  · intro habsent
    cases db with
    | mk flag data =>
      simp only [DB.DeleteQuery, DB.mk.injEq, true_and]
      funext q
      by_cases hq : q = sql
      · subst hq
        simpa [DB.GetQuery] using habsent.symm
      · simp [hq]
  · intro other hother
    simp [DB.AddQuery, DB.DeleteQuery, DB.GetQuery, hother]

/-- C9, on the freshly registered store, with sql texts that differ only in
case or in whitespace. -/
theorem store_last_write_wins_witness :
    ((Register.AddQuery "SELECT 1" selectOne).AddQuery "SELECT 1" selectTwo).GetQuery "SELECT 1"
      = some selectTwo ∧
    (((Register.AddQuery "SELECT 1" selectOne).AddQuery "SELECT 1" selectTwo).DeleteQuery
      "SELECT 1").GetQuery "SELECT 1" = none ∧
    (Register.GetQuery "SELECT 1" = none ∧ Register.DeleteQuery "SELECT 1" = Register) ∧
    ("select 1" ≠ "SELECT 1" ∧
      (Register.AddQuery "SELECT 1" selectOne).GetQuery "select 1" = Register.GetQuery "select 1") ∧
    ("SELECT  1" ≠ "SELECT 1" ∧
      (Register.DeleteQuery "SELECT 1").GetQuery "SELECT  1" = Register.GetQuery "SELECT  1") :=
  have h := store_last_write_wins Register "SELECT 1" selectOne selectTwo
  ⟨h.1, h.2.1, ⟨rfl, h.2.2.1 rfl⟩,
    ⟨by decide, (h.2.2.2.1 "select 1" (by decide)).1⟩,
    ⟨by decide, (h.2.2.2.1 "SELECT  1" (by decide)).2.2⟩⟩

/-! ## Connection creation -/

/-- C10: the factory installed by `Register` fails with the `SqlError` number
2012, "connection fail", and returns no connection, exactly when the fault flag
of the store is set, and returns a connection otherwise. On the freshly
registered store it returns an open connection that points to that store;
after `EnableConnFail` it fails; after a later `DisableConnFail` it succeeds
again; `EnableConnFail` and `DisableConnFail` are idempotent. -/
theorem connect_fails_iff_fault_flag (heap : Heap) (db : DBRef) (id : Nat) :
    (RegisterFactory heap db id =
        .error { Num := 2012, Message := "connection fail", Query := "" } ↔
      (heap db).IsConnFail = true) ∧
    (RegisterFactory heap db id = .ok (NewFakeSqlDBConn db id) ↔
      (heap db).IsConnFail = false) ∧
    (RegisterFactory (Function.update heap db Register) db id = .ok (NewFakeSqlDBConn db id) ∧
      (NewFakeSqlDBConn db id).db = db ∧ (NewFakeSqlDBConn db id).IsClosed = false) ∧
    RegisterFactory (Function.update heap db (heap db).EnableConnFail) db id =
      .error { Num := 2012, Message := "connection fail", Query := "" } ∧
    RegisterFactory (Function.update heap db (heap db).EnableConnFail.DisableConnFail) db id =
      .ok (NewFakeSqlDBConn db id) ∧
    (heap db).EnableConnFail.EnableConnFail = (heap db).EnableConnFail ∧
    (heap db).DisableConnFail.DisableConnFail = (heap db).DisableConnFail := by
  refine ⟨?_, ?_, ⟨?_, rfl, rfl⟩, ?_, ?_, rfl, rfl⟩
  · cases hflag : (heap db).isConnFail <;> simp [RegisterFactory, DB.IsConnFail, hflag]
  · cases hflag : (heap db).isConnFail <;> simp [RegisterFactory, DB.IsConnFail, hflag]
  · simp [RegisterFactory, DB.IsConnFail, Register]
  · simp [RegisterFactory, DB.IsConnFail, DB.EnableConnFail]
  · simp [RegisterFactory, DB.IsConnFail, DB.EnableConnFail, DB.DisableConnFail]

/-- C10, on a heap whose store at pointer 0 is fresh from `Register`. -/
theorem connect_fails_iff_fault_flag_witness :
    ((fun _ => Register : Heap) 0).IsConnFail = false ∧
    RegisterFactory (fun _ => Register) 0 5 = .ok (NewFakeSqlDBConn 0 5) ∧
    RegisterFactory (Function.update (fun _ => Register) 0 Register.EnableConnFail) 0 5 =
      .error { Num := 2012, Message := "connection fail", Query := "" } :=
  have h := connect_fails_iff_fault_flag (fun _ => Register) 0 5
  ⟨rfl, h.2.1.2 rfl, h.2.2.2.1⟩

/-! ## Charset -/

/-- C11 (code defect): on a connection fresh from `NewFakeSqlDBConn`, whose
`charset` pointer is nil, `GetCharset` panics with a nil dereference
(`return *conn.charset, nil`); it returns no charset value at all, default or
other. -/
theorem GetCharset_on_new_connection_panics (db : DBRef) (id : Nat) :
    (NewFakeSqlDBConn db id).charset = none ∧
    (NewFakeSqlDBConn db id).GetCharset = .panic .nilDereference ∧
    ∀ cs : Charset, (NewFakeSqlDBConn db id).GetCharset ≠ .ret (cs, none) := by
  have h : (NewFakeSqlDBConn db id).GetCharset = .panic .nilDereference := rfl
  refine ⟨rfl, h, ?_⟩
  intro cs
  rw [h]
  simp

/-! ## Close -/

/-- C12: a new connection is open; after `Close`, `IsClosed` is true; a second
`Close` leaves the whole connection as it was; and after any sequence of
calls of the methods of the connection (with the stores in any state at each
call) on a closed connection, `IsClosed` is still true. -/
theorem close_is_idempotent_and_permanent (db : DBRef) (id : Nat) (conn : Conn)
    (calls : List (Heap × Op)) :
    (NewFakeSqlDBConn db id).IsClosed = false ∧
    conn.Close.IsClosed = true ∧
    conn.Close.Close = conn.Close ∧
    (conn.IsClosed = true → (conn.afterAll calls).IsClosed = true) ∧
    (conn.Close.afterAll calls).IsClosed = true :=
  ⟨rfl, rfl, rfl, fun h => afterAll_closed calls conn h,
    afterAll_closed calls conn.Close rfl⟩

/-- C12, at a connection closed in the middle of a stream and then used with
every kind of call. -/
theorem close_is_idempotent_and_permanent_witness :
    streamingConn.Close.IsClosed = true ∧
    (streamingConn.Close.afterAll
      [(sampleHeap, .ExecuteFetch "SELECT 1" 10 true), (sampleHeap, .ExecuteFetchMap "SELECT 1"),
       (sampleHeap, .ExecuteStreamFetch "SELECT 2"), (sampleHeap, .FetchNext),
       (failingHeap, .Close), (sampleHeap, .SetCharset ⟨1, 2, 3⟩), (sampleHeap, .GetCharset),
       (sampleHeap, .Shutdown), (sampleHeap, .CloseResult), (sampleHeap, .ReadPacket),
       (sampleHeap, .SendCommand 3 [1]), (sampleHeap, .Fields), (sampleHeap, .ID),
       (sampleHeap, .IsClosed)]).IsClosed = true :=
  ⟨rfl, (close_is_idempotent_and_permanent 0 5 streamingConn.Close _).2.2.2.1 rfl⟩

/-! ## ExecuteFetch without fields -/

/-- C13: on an open connection, for a registered result with
`rows_affected <= len(rows)` and `0 <= rows_affected <= max_rows` (`max_rows`
a 64-bit `int`), `ExecuteFetch(sql, max_rows, false)` returns, with no
out-of-range access, `rows_affected` and `insert_id` as registered, the first
`rows_affected` registered rows in order, and no fields. -/
theorem ExecuteFetch_without_fields (heap : Heap) (conn : Conn) (sql : String)
    (maxrows : Int) (result : QueryResult)
    (hopen : conn.isClosed = false)
    (hreg : (heap conn.db).GetQuery sql = some result)
    (hrows : result.RowsAffected ≤ result.Rows.length)
    (hmax : (result.RowsAffected : Int) ≤ maxrows)
    (hint : maxrows < 2 ^ 63) :
    conn.ExecuteFetch heap sql maxrows false =
      .ret (.ok { Fields := [], RowsAffected := result.RowsAffected,
                  InsertId := result.InsertId,
                  Rows := result.Rows.take result.RowsAffected }) := by
  have h0 : 0 ≤ maxrows := by omega
  have hu : uint64 maxrows = maxrows.toNat := uint64_of_nonneg maxrows h0 (by omega)
  have hi : int result.RowsAffected = (result.RowsAffected : Int) :=
    int_of_small _ (by omega)
  have h := ExecuteFetch_past_limit heap conn sql maxrows false result hopen hreg
    (by rw [hu]; omega) (by rw [hi]; simpa using hrows)
  rw [hi] at h
  simpa using h

/-- C13, at the scenario: `"SELECT 1"` registered with `rows_affected = 2` and
rows `[[1],[2]]`, fetched with `max_rows = 10`. -/
theorem ExecuteFetch_without_fields_witness :
    (scenarioHeap (NewFakeSqlDBConn 0 5).db).GetQuery "SELECT 1" =
      some { RowsAffected := 2, Rows := [[⟨"1"⟩], [⟨"2"⟩]] } ∧
    (NewFakeSqlDBConn 0 5).ExecuteFetch scenarioHeap "SELECT 1" 10 false =
      .ret (.ok { Fields := [], RowsAffected := 2, InsertId := 0,
                  Rows := [[⟨"1"⟩], [⟨"2"⟩]] }) :=
  ⟨rfl, ExecuteFetch_without_fields scenarioHeap (NewFakeSqlDBConn 0 5) "SELECT 1" 10
    { RowsAffected := 2, Rows := [[⟨"1"⟩], [⟨"2"⟩]] } rfl rfl (by decide) (by decide)
    (by decide)⟩

/-! ## Streaming on a closed connection and from a skewed registration -/

/-- C18 (code defect): a connection in the middle of a stream of two rows, one
of them fetched, is closed; the next `FetchNext` returns the second row with a
nil error and advances the cursor. `FetchNext` never tests `IsClosed`, as
`ExecuteFetch` and `ExecuteStreamFetch` do. -/
theorem FetchNext_on_closed_connection_returns_row :
    streamingConn.curQueryResult = some selectTwo ∧
    streamingConn.curQueryRow = 1 ∧
    selectTwo.Rows.length = 2 ∧
    streamingConn.Close.IsClosed = true ∧
    streamingConn.Close.FetchNext =
      .ret ((some [⟨"2"⟩], none), { streamingConn.Close with curQueryRow := 2 }) :=
  ⟨rfl, rfl, rfl, rfl, rfl⟩

/-- C19 (the claim as stated fails): with `"SELECT 5"` registered with
`rows_affected = 5` and one row, `ExecuteStreamFetch` on an open connection
returns no error, and the `1 + k` calls of `FetchNext` that follow return the
one row and then `k` times `(nil, nil)`, each with a nil error, for every
`k`. -/
theorem skewed_stream_reports_no_failure :
    (NewFakeSqlDBConn 0 5).isClosed = false ∧
    (skewedHeap (NewFakeSqlDBConn 0 5).db).GetQuery "SELECT 5" = some selectSkewed ∧
    selectSkewed.RowsAffected ≠ selectSkewed.Rows.length ∧
    ((NewFakeSqlDBConn 0 5).ExecuteStreamFetch skewedHeap "SELECT 5").1 = none ∧
    ∀ k : Nat, ∃ conn1 : Conn,
      fetchMany (1 + k) ((NewFakeSqlDBConn 0 5).ExecuteStreamFetch skewedHeap "SELECT 5").2 =
        .ret ((some [⟨"1"⟩], none) :: List.replicate k (none, none), conn1) := by
  refine ⟨rfl, rfl, by decide, rfl, ?_⟩
  intro k
  have h := (stream_drain skewedHeap (NewFakeSqlDBConn 0 5) "SELECT 5" selectSkewed k rfl rfl).2
  exact ⟨_, h⟩

/-- C19 (amended): on an open connection, for a registered result whose
`rows_affected` differs from `len(rows)`, `ExecuteStreamFetch` returns no
error, the `len(rows)` calls of `FetchNext` that follow return the registered
rows in order and the `k` calls after those return `(nil, nil)`, and every one
of these calls returns a nil error: `rows_affected` is not looked at. -/
theorem stream_ignores_rows_affected (heap : Heap) (conn : Conn) (sql : String)
    (result : QueryResult) (k : Nat)
    (hopen : conn.isClosed = false)
    (hreg : (heap conn.db).GetQuery sql = some result)
    (_hskew : result.RowsAffected ≠ result.Rows.length) :
    (conn.ExecuteStreamFetch heap sql).1 = none ∧
    fetchMany (result.Rows.length + k) (conn.ExecuteStreamFetch heap sql).2 =
      .ret (result.Rows.map (fun row => (some row, none)) ++ List.replicate k (none, none),
            { conn with curQueryResult := some result,
                        curQueryRow := (result.Rows.length : Int) }) ∧
    ∀ out ∈ result.Rows.map (fun row => ((some row, none) : Option (List Value) × Option Err))
        ++ List.replicate k (none, none), out.2 = none := by
  have h := stream_drain heap conn sql result k hopen hreg
  refine ⟨by rw [h.1], h.2, ?_⟩
  intro out hout
  rw [List.mem_append] at hout
  rcases hout with hout | hout
  · obtain ⟨row, _, rfl⟩ := List.mem_map.mp hout
    rfl
  · rw [(List.mem_replicate.mp hout).2]

/-- C19 (amended), at a registration with `rows_affected = 5` and one row. -/
theorem stream_ignores_rows_affected_witness :
    selectSkewed.RowsAffected ≠ selectSkewed.Rows.length ∧
    (streamingConn.ExecuteStreamFetch skewedHeap "SELECT 5").1 = none ∧
    fetchMany (selectSkewed.Rows.length + 2)
        (streamingConn.ExecuteStreamFetch skewedHeap "SELECT 5").2 =
      .ret (selectSkewed.Rows.map (fun row => (some row, none)) ++ List.replicate 2 (none, none),
            { streamingConn with curQueryResult := some selectSkewed,
                                 curQueryRow := (selectSkewed.Rows.length : Int) }) :=
  have h := stream_ignores_rows_affected skewedHeap streamingConn "SELECT 5" selectSkewed 2
    rfl rfl (by decide)
  ⟨by decide, h.1, h.2.1⟩

/-! ## The fault flag and the fetches -/

/-- C20: for two states of the stores in which the store of the connection
holds the same entries (the fault flags may differ), and for a connection in
any state, `ExecuteFetch`, `ExecuteFetchMap` and `ExecuteStreamFetch` return
the same results and errors and leave the same cursor, and so does the
`FetchNext` after the stream is started; `EnableConnFail` and
`DisableConnFail` leave every entry of the store as it was. -/
theorem fetches_do_not_read_fault_flag (heap1 heap2 : Heap) (conn : Conn) (sql : String)
    (maxrows : Int) (wantfields : Bool) (db : DB)
    (hsame : (heap1 conn.db).data = (heap2 conn.db).data) :
    conn.ExecuteFetch heap1 sql maxrows wantfields =
      conn.ExecuteFetch heap2 sql maxrows wantfields ∧
    conn.ExecuteFetchMap heap1 sql = conn.ExecuteFetchMap heap2 sql ∧
    conn.ExecuteStreamFetch heap1 sql = conn.ExecuteStreamFetch heap2 sql ∧
    (conn.ExecuteStreamFetch heap1 sql).2.FetchNext =
      (conn.ExecuteStreamFetch heap2 sql).2.FetchNext ∧
    (∀ q : String, db.EnableConnFail.GetQuery q = db.GetQuery q) ∧
    (∀ q : String, db.DisableConnFail.GetQuery q = db.GetQuery q) := by
  have hf : ∀ m w, conn.ExecuteFetch heap1 sql m w = conn.ExecuteFetch heap2 sql m w := by
    intro m w
    simp only [Conn.ExecuteFetch, DB.GetQuery, hsame]
  have hs : conn.ExecuteStreamFetch heap1 sql = conn.ExecuteStreamFetch heap2 sql := by
    simp only [Conn.ExecuteStreamFetch, DB.GetQuery, hsame]
  refine ⟨hf _ _, ?_, hs, by rw [hs], fun _ => rfl, fun _ => rfl⟩
  simp only [Conn.ExecuteFetchMap, hf]

/-- C20, at the sample stores with the fault flag clear and with it set. -/
theorem fetches_do_not_read_fault_flag_witness :
    (sampleHeap streamingConn.db).isConnFail ≠ (failingHeap streamingConn.db).isConnFail ∧
    (sampleHeap streamingConn.db).data = (failingHeap streamingConn.db).data ∧
    streamingConn.ExecuteFetch sampleHeap "SELECT 2" 10 true =
      streamingConn.ExecuteFetch failingHeap "SELECT 2" 10 true ∧
    streamingConn.ExecuteFetchMap sampleHeap "SELECT 2" =
      streamingConn.ExecuteFetchMap failingHeap "SELECT 2" ∧
    streamingConn.ExecuteStreamFetch sampleHeap "SELECT 2" =
      streamingConn.ExecuteStreamFetch failingHeap "SELECT 2" :=
  have h := fetches_do_not_read_fault_flag sampleHeap failingHeap streamingConn "SELECT 2"
    10 true sampleDB rfl
  ⟨by decide, rfl, h.1, h.2.1, h.2.2.1⟩

/-! ## SetCharset -/

/-- C21 (code defect): on a connection fresh from `NewFakeSqlDBConn`, whose
`charset` pointer is nil, `SetCharset(cs)` panics with a nil dereference for
every charset `cs` (`*conn.charset = cs`): it returns no error value, stores
nothing, and the `GetCharset` that follows panics as well. -/
theorem SetCharset_on_new_connection_panics (db : DBRef) (id : Nat) (cs : Charset) :
    (NewFakeSqlDBConn db id).charset = none ∧
    (NewFakeSqlDBConn db id).SetCharset cs = .panic .nilDereference ∧
    (∀ conn1 : Conn, (NewFakeSqlDBConn db id).SetCharset cs ≠ .ret (none, conn1)) ∧
    ((NewFakeSqlDBConn db id).after (fun _ => Register) (.SetCharset cs)).GetCharset =
      .panic .nilDereference := by
  have h : (NewFakeSqlDBConn db id).SetCharset cs = .panic .nilDereference := rfl
  refine ⟨rfl, h, ?_, rfl⟩
  intro conn1
  rw [h]
  simp

end fakesqldb

namespace tabletconntest

open fakesqldb (Value Field QueryResult)

/-! ## Auxiliary facts -/

/-- `t.Errorf` makes the log one record longer, so the service after it is
not the service before it. -/
theorem Errorf_ne (f g : fakeQueryService) (format : String) (args : List Arg)
    (hlen : f.t.reports.length ≤ g.t.reports.length) :
    ({ g with t := g.t.Errorf format args } : fakeQueryService) ≠ f := by
  intro h
  have hl := congrArg (fun x : fakeQueryService => x.t.reports.length) h
  simp [T.Errorf] at hl
  omega

/-- A map that is deep-equal to the one of `splitQueryBoundQuery` is strictly
contained in the one of the canned split. -/
theorem superset_of_deepEqual (m : BindVariables)
    (h : mapDeepEqual m splitQueryBoundQuery.BindVariables = true) :
    isStrictSuperset [("bind1", .int64 43), ("keyspace_id", .int64 3333)] m = true := by
  simp only [mapDeepEqual, splitQueryBoundQuery, Bool.and_eq_true, List.all_eq_true] at h
  have hkey : ∀ p ∈ m, p.1 = "bind1" ∧ p.2 = .int64 43 := by
    intro p hp
    have hp1 := h.1 p hp
    by_cases hk : p.1 = "bind1"
    · simp [List.lookup, hk] at hp1
      exact ⟨hk, hp1.symm⟩
    · have hb : (p.1 == "bind1") = false := by simpa using hk
      simp [List.lookup, hb] at hp1
  simp only [isStrictSuperset, Bool.and_eq_true, List.all_eq_true, List.any_eq_true]
  refine ⟨?_, ⟨("keyspace_id", .int64 3333), by simp, ?_⟩⟩
  · intro p hp
    obtain ⟨h1, h2⟩ := hkey p hp
    rw [h1, h2]
    decide
  · have hnone : m.lookup "keyspace_id" = none := by
      rw [List.lookup_eq_none_iff]
      intro p hp
      rw [(hkey p hp).1]
      decide
    simp [hnone]

/-- `SplitQuery` leaves the test log as it was exactly for the request of the
suite: a query deep-equal to `splitQueryBoundQuery` and `split_count = 372`. -/
theorem SplitQuery_accepts_iff (f : fakeQueryService) (req : SplitQueryRequest) :
    (f.SplitQuery req).1 = f ↔
      boundQueryDeepEqual req.Query splitQueryBoundQuery = true ∧ req.SplitCount = 372 := by
  constructor
  · intro haccept
    have hq : boundQueryDeepEqual req.Query splitQueryBoundQuery = true := by
      by_contra hq
      by_cases hc : req.SplitCount = splitQuerySplitCount
      · simp only [fakeQueryService.SplitQuery, hq, hc, ne_eq, not_true_eq_false, if_false,
          Bool.not_eq_true, Bool.not_false, if_true, Bool.not_eq_true'] at haccept
        exact Errorf_ne f f _ _ (le_refl _) (by simpa [hq] using haccept)
      · simp only [fakeQueryService.SplitQuery, hc, ne_eq, not_false_eq_true, if_true]
          at haccept
        split at haccept
        · exact Errorf_ne f _ _ _ (by simp [T.Errorf]) haccept
        · exact Errorf_ne f f _ _ (le_refl _) haccept
    have hc : req.SplitCount = splitQuerySplitCount := by
      by_contra hc
      simp only [fakeQueryService.SplitQuery, hq, hc, ne_eq, not_false_eq_true, if_true,
        Bool.not_true, Bool.false_eq_true, if_false] at haccept
      exact Errorf_ne f f _ _ (le_refl _) haccept
    exact ⟨hq, hc⟩
  · rintro ⟨hq, hc⟩
    have hc1 : req.SplitCount = splitQuerySplitCount := hc
    simp [fakeQueryService.SplitQuery, hq, hc1]

/-! ## Begin, Commit, Rollback -/

/-- C14 (the claim as stated fails): two `Begin` calls made one after the
other with the same session return the same transaction id, 9990. -/
theorem Begin_twice_returns_same_id :
    (cleanService.Begin beginSession).2.1.TransactionId = 9990 ∧
    ((cleanService.Begin beginSession).1.Begin beginSession).2.1.TransactionId = 9990 ∧
    ¬ ((cleanService.Begin beginSession).2.1.TransactionId ≠
        ((cleanService.Begin beginSession).1.Begin beginSession).2.1.TransactionId) := by
  refine ⟨rfl, rfl, ?_⟩
  intro h
  exact h rfl

/-- C14 (amended): for every session and every state of the service, `Begin`
returns the transaction id 9990 (`beginTransactionId`) and a nil error; a
`Begin` that follows, with any session, returns that same id. -/
theorem Begin_returns_fixed_id (f : fakeQueryService) (session session1 : Session) :
    (f.Begin session).2.1.TransactionId = 9990 ∧
    (f.Begin session).2.2 = none ∧
    ((f.Begin session).1.Begin session1).2.1.TransactionId =
      (f.Begin session).2.1.TransactionId :=
  ⟨rfl, rfl, rfl⟩

/-- C15 (the claim as stated fails): `Commit` and `Rollback` return a nil error
for a session whose session id and transaction id are both wrong, and a second
`Commit` and a second `Rollback` of the same transaction return a nil error
too. -/
theorem Commit_Rollback_mismatch_returns_nil :
    strangerSession.SessionId ≠ testSessionId ∧
    strangerSession.TransactionId ≠ commitTransactionId ∧
    strangerSession.TransactionId ≠ rollbackTransactionId ∧
    (cleanService.Commit strangerSession).2 = none ∧
    (cleanService.Rollback strangerSession).2 = none ∧
    ((cleanService.Commit commitSession).1.Commit commitSession).2 = none ∧
    ((cleanService.Rollback commitSession).1.Rollback commitSession).2 = none :=
  ⟨by decide, by decide, by decide, rfl, rfl, rfl, rfl⟩

/-- C15 (amended): `Commit` and `Rollback` return a nil error for every
session, also when the same pair is presented again; they record a failure on
the test log exactly when the session id is not 5678 or the transaction id is
not 999044, and leave the service as it was for the matching pair. -/
theorem Commit_Rollback_report_on_test_log (f : fakeQueryService) (session : Session) :
    (f.Commit session).2 = none ∧
    (f.Rollback session).2 = none ∧
    ((f.Commit session).1.Commit session).2 = none ∧
    ((f.Rollback session).1.Rollback session).2 = none ∧
    ((f.Commit session).1 = f ↔
      session.SessionId = 5678 ∧ session.TransactionId = 999044) ∧
    ((f.Rollback session).1 = f ↔
      session.SessionId = 5678 ∧ session.TransactionId = 999044) := by
  refine ⟨rfl, rfl, rfl, rfl, ?_, ?_⟩
  · by_cases h1 : session.SessionId = testSessionId <;>
      by_cases h2 : session.TransactionId = commitTransactionId
    · simp only [fakeQueryService.Commit, h1, h2, ne_eq, not_true_eq_false, if_false]
      simp [testSessionId, commitTransactionId]
    · simp only [fakeQueryService.Commit, h1, h2, ne_eq, not_true_eq_false, if_false,
        not_false_eq_true, if_true]
      have := Errorf_ne f f "Commit: invalid TransactionId: got %v expected %v"
        [.int64 session.TransactionId, .int64 commitTransactionId] (le_refl _)
      simp only [this, false_iff, not_and]
      intro _ h
      exact h2 h
    · simp only [fakeQueryService.Commit, h1, h2, ne_eq, not_true_eq_false, if_false,
        not_false_eq_true, if_true]
      have := Errorf_ne f f "Commit: invalid SessionId: got %v expected %v"
        [.int64 session.SessionId, .int64 testSessionId] (le_refl _)
      simp only [this, false_iff, not_and]
      intro h
      exact absurd h h1
    · simp only [fakeQueryService.Commit, h1, h2, ne_eq, not_false_eq_true, if_true]
      have := Errorf_ne f
        { f with t := (f.t.Errorf "Commit: invalid SessionId: got %v expected %v"
            [.int64 session.SessionId, .int64 testSessionId]) }
        "Commit: invalid TransactionId: got %v expected %v"
        [.int64 session.TransactionId, .int64 commitTransactionId]
        (by simp [T.Errorf])
      simp only [this, false_iff, not_and]
      intro h
      exact absurd h h1
  · by_cases h1 : session.SessionId = testSessionId <;>
      by_cases h2 : session.TransactionId = rollbackTransactionId
    · simp only [fakeQueryService.Rollback, h1, h2, ne_eq, not_true_eq_false, if_false]
      simp [testSessionId, rollbackTransactionId]
    · simp only [fakeQueryService.Rollback, h1, h2, ne_eq, not_true_eq_false, if_false,
        not_false_eq_true, if_true]
      have := Errorf_ne f f "Rollback: invalid TransactionId: got %v expected %v"
        [.int64 session.TransactionId, .int64 rollbackTransactionId] (le_refl _)
      simp only [this, false_iff, not_and]
      intro _ h
      exact h2 h
    · simp only [fakeQueryService.Rollback, h1, h2, ne_eq, not_true_eq_false, if_false,
        not_false_eq_true, if_true]
      have := Errorf_ne f f "Rollback: invalid SessionId: got %v expected %v"
        [.int64 session.SessionId, .int64 testSessionId] (le_refl _)
      simp only [this, false_iff, not_and]
      intro h
      exact absurd h h1
    · simp only [fakeQueryService.Rollback, h1, h2, ne_eq, not_false_eq_true, if_true]
      have := Errorf_ne f
        { f with t := (f.t.Errorf "Rollback: invalid SessionId: got %v expected %v"
            [.int64 session.SessionId, .int64 testSessionId]) }
        "Rollback: invalid TransactionId: got %v expected %v"
        [.int64 session.TransactionId, .int64 rollbackTransactionId]
        (by simp [T.Errorf])
      simp only [this, false_iff, not_and]
      intro h
      exact absurd h h1

/-- C15 (amended), at the matching pair and at a session with both ids
wrong. -/
theorem Commit_Rollback_report_on_test_log_witness :
    ((cleanService.Commit commitSession).2 = none ∧
      (cleanService.Commit commitSession).1 = cleanService) ∧
    ((cleanService.Commit strangerSession).2 = none ∧
      (cleanService.Commit strangerSession).1 ≠ cleanService) :=
  have h := Commit_Rollback_report_on_test_log cleanService commitSession
  have h1 := Commit_Rollback_report_on_test_log cleanService strangerSession
  ⟨⟨h.1, h.2.2.2.2.1.mpr ⟨rfl, rfl⟩⟩,
    ⟨h1.1, fun hc => absurd (h1.2.2.2.2.1.mp hc).1 (by decide)⟩⟩

/-! ## StreamExecute -/

/-- C16: for every request and every reply callback that never fails,
`StreamExecute` calls the callback exactly twice, first with the fragment that
carries the two fields and no rows, then with the fragment that carries the
two rows and no fields, and returns a nil error; it records no callback
failure, so the request of the suite leaves the test log as it was. -/
theorem StreamExecute_sends_fields_then_rows {σ : Type} (f : fakeQueryService)
    (query : Query) (sendReply : σ → QueryResult → σ × Option GoError) (s : σ)
    (hok : ∀ (s1 : σ) (qr : QueryResult), (sendReply s1 qr).2 = none) :
    (f.StreamExecute query sendReply s).2.2 = none ∧
    (f.StreamExecute query sendReply s).2.1 =
      (sendReply (sendReply s streamExecuteQueryResult1).1 streamExecuteQueryResult2).1 ∧
    (f.StreamExecute query recordReply []).2.1 =
      [streamExecuteQueryResult1, streamExecuteQueryResult2] ∧
    (streamExecuteQueryResult1.Fields = [⟨"field1", 42⟩, ⟨"field2", 73⟩] ∧
      streamExecuteQueryResult1.Rows = []) ∧
    (streamExecuteQueryResult2.Fields = [] ∧
      streamExecuteQueryResult2.Rows =
        [[⟨"row1 value1"⟩, ⟨"row1 value2"⟩], [⟨"row2 value1"⟩, ⟨"row2 value2"⟩]]) ∧
    (f.StreamExecute query sendReply s).1 = (f.StreamExecute query recordReply []).1 ∧
    (f.StreamExecute streamExecuteRequest sendReply s).1 = f := by
  have hlog : ∀ q : Query,
      (f.StreamExecute q sendReply s).1 = (f.StreamExecute q recordReply []).1 := by
    intro q
    simp only [fakeQueryService.StreamExecute, hok, recordReply]
  refine ⟨rfl, rfl, rfl, ⟨rfl, rfl⟩, ⟨rfl, rfl⟩, hlog query, ?_⟩
  rw [hlog]
  rfl

/-- C16, with the callback that keeps the fragments it is handed. -/
theorem StreamExecute_sends_fields_then_rows_witness :
    (∀ (s1 : List QueryResult) (qr : QueryResult), (recordReply s1 qr).2 = none) ∧
    (cleanService.StreamExecute streamExecuteRequest recordReply []).2.2 = none ∧
    (cleanService.StreamExecute streamExecuteRequest recordReply []).2.1 =
      [streamExecuteQueryResult1, streamExecuteQueryResult2] ∧
    (cleanService.StreamExecute streamExecuteRequest recordReply []).1 = cleanService :=
  have h := StreamExecute_sends_fields_then_rows cleanService streamExecuteRequest
    recordReply [] (fun _ _ => rfl)
  ⟨fun _ _ => rfl, h.1, h.2.2.1, h.2.2.2.2.2.2⟩

/-! ## SplitQuery -/

/-- C17 (the claim as stated fails): for a request with `split_count = 0` the
reply holds one entry, more than `split_count`; and for a request whose query
binds `other = 1` the bind variables of the entry do not hold that binding. -/
theorem SplitQuery_reply_ignores_request :
    ((cleanService.SplitQuery { Query := splitQueryBoundQuery, SplitCount := 0 }).2.1.Queries.length
        : Int) > 0 ∧
    (∃ e ∈ (cleanService.SplitQuery
          { Query := { Sql := "splitQuery", BindVariables := [("other", .int64 1)] },
            SplitCount := 372 }).2.1.Queries,
      isStrictSuperset e.Query.BindVariables [("other", .int64 1)] = false) := by
  refine ⟨by decide, ?_⟩
  refine ⟨{ Query := { Sql := "splitQuery",
                       BindVariables := [("bind1", .int64 43), ("keyspace_id", .int64 3333)] },
            RowCount := 4456 }, ?_, by decide⟩
  simp [fakeQueryService.SplitQuery, splitQueryQuerySplitList]

/-- C17 (amended): for every request, accepted or not, `SplitQuery` returns a
nil error and replies with the one canned `QuerySplit` (sql `splitQuery`, bind
variables `bind1 = 43` and `keyspace_id = 3333`, row count 4456); it records
no failure on the test log exactly when the query is deep-equal to the one of
the suite and `split_count` is 372; and for every request it so accepts, the
reply holds at most `split_count` entries and the bind variables of every
entry are a strict superset of the bind variables of the query. -/
theorem SplitQuery_replies_canned_split (f : fakeQueryService) (req : SplitQueryRequest) :
    (f.SplitQuery req).2.2 = none ∧
    (f.SplitQuery req).2.1.Queries =
      [{ Query := { Sql := "splitQuery",
                    BindVariables := [("bind1", .int64 43), ("keyspace_id", .int64 3333)] },
         RowCount := 4456 }] ∧
    ((f.SplitQuery req).1 = f ↔
      boundQueryDeepEqual req.Query splitQueryBoundQuery = true ∧ req.SplitCount = 372) ∧
    ((f.SplitQuery req).1 = f →
      ((f.SplitQuery req).2.1.Queries.length : Int) ≤ req.SplitCount ∧
      ∀ e ∈ (f.SplitQuery req).2.1.Queries,
        isStrictSuperset e.Query.BindVariables req.Query.BindVariables = true) := by
  refine ⟨rfl, rfl, SplitQuery_accepts_iff f req, ?_⟩
  intro haccept
  obtain ⟨hq, hc⟩ := (SplitQuery_accepts_iff f req).mp haccept
  have hm : mapDeepEqual req.Query.BindVariables splitQueryBoundQuery.BindVariables = true := by
    simp only [boundQueryDeepEqual, Bool.and_eq_true] at hq
    exact hq.2
  refine ⟨?_, ?_⟩
  · rw [hc]
    show ((splitQueryQuerySplitList.length : Nat) : Int) ≤ 372
    decide
  · intro e he
    have he1 : e ∈ splitQueryQuerySplitList := he
    simp only [splitQueryQuerySplitList, List.mem_singleton] at he1
    rw [he1]
    exact superset_of_deepEqual _ hm

/-- C17 (amended), at the request of the suite (the query `splitQuery` with
`bind1 = 43` and `split_count = 372`), which is accepted, and at the same
query with `split_count = 0`, which is not and gets the same reply. -/
theorem SplitQuery_replies_canned_split_witness :
    ((cleanService.SplitQuery splitQueryRequest).1 = cleanService ∧
      (cleanService.SplitQuery splitQueryRequest).2.2 = none ∧
      ((cleanService.SplitQuery splitQueryRequest).2.1.Queries.length : Int) ≤ 372 ∧
      ∀ e ∈ (cleanService.SplitQuery splitQueryRequest).2.1.Queries,
        isStrictSuperset e.Query.BindVariables [("bind1", .int64 43)] = true) ∧
    ((cleanService.SplitQuery { Query := splitQueryBoundQuery, SplitCount := 0 }).1
        ≠ cleanService ∧
      (cleanService.SplitQuery { Query := splitQueryBoundQuery, SplitCount := 0 }).2.2 = none ∧
      (cleanService.SplitQuery { Query := splitQueryBoundQuery, SplitCount := 0 }).2.1.Queries =
        [{ Query := { Sql := "splitQuery",
                      BindVariables := [("bind1", .int64 43), ("keyspace_id", .int64 3333)] },
           RowCount := 4456 }]) :=
  have h := SplitQuery_replies_canned_split cleanService splitQueryRequest
  have h0 := SplitQuery_replies_canned_split cleanService
    { Query := splitQueryBoundQuery, SplitCount := 0 }
  ⟨⟨rfl, h.1, (h.2.2.2 rfl).1, (h.2.2.2 rfl).2⟩,
    ⟨fun hc => absurd (h0.2.2.1.mp hc).2 (by decide), h0.1, h0.2.1⟩⟩

end tabletconntest
